import Mathlib

/-!
Verification of the rootless Android container runtime (crates/core, crates/sandbox).

The Rust code is shallowly embedded: every external effect (filesystem test,
subprocess, mount syscall, ioctl) is resolved through an explicit environment
record, and each embedded function returns its result together with the updated
container state and the ordered trace of effects it attempted.  The embeddings
follow the source functions in `crates/core/src/container.rs`,
`crates/core/src/image.rs`, `crates/sandbox/src/lib.rs` and
`crates/sandbox/src/binderfs.rs` statement by statement.
-/

namespace Rad

/-! ### Image model — `crates/core/src/image.rs` -/

/-- Error taxonomy of the runtime (the Rust code uses `anyhow` bail sites;
each constructor corresponds to one bail site relevant to the claims). -/
inductive CError where
  | imageNotFound
  | imageTooSmall
  | ensureDirsFailed
  | dataDirsFailed
  | mountSystemFailed
  | mountVendorFailed
  | apexFailed
  | linkerFailed
  | noInitBinary
  | spawnFailed
  | initDiedImmediately
  | processDied
  | bootTimeout
deriving DecidableEq

instance {ε α : Type} [DecidableEq ε] [DecidableEq α] : DecidableEq (Except ε α) := fun a b =>
  match a, b with
  | .ok x, .ok y =>
    if h : x = y then .isTrue (congrArg Except.ok h)
    else .isFalse (fun hc => h (Except.ok.inj hc))
  | .error x, .error y =>
    if h : x = y then .isTrue (congrArg Except.error h)
    else .isFalse (fun hc => h (Except.error.inj hc))
  | .ok _, .error _ => .isFalse (fun hc => Except.noConfusion hc)
  | .error _, .ok _ => .isFalse (fun hc => Except.noConfusion hc)

/-- Host filesystem view seen by `ImagePaths::validate`:
whether each image path exists and the sizes `fs::metadata(..).len()` reports. -/
structure FsView where
  systemImgExists : Bool
  vendorImgExists : Bool
  systemImgSize : Nat
  vendorImgSize : Nat
deriving DecidableEq

/-- `500 * 1024 * 1024`, the minimum system image size from `validate`. -/
def minSystemImageSize : Nat := 500 * 1024 * 1024

/-- `ImagePaths::validate` (image.rs lines 44-77): bail `imageNotFound` if the
system image is absent, then if the vendor image is absent; then bail
`imageTooSmall` if the system image is under 500 MiB; otherwise `Ok(())`.
The vendor image size is only read for the log line, never compared. -/
def ImagePaths.validate (fs : FsView) : Except CError Unit :=
  if fs.systemImgExists = false then .error .imageNotFound
  else if fs.vendorImgExists = false then .error .imageNotFound
  else if fs.systemImgSize < minSystemImageSize then .error .imageTooSmall
  else .ok ()

/-- `MountPoints` (image.rs): the five derived paths.  Paths are modelled as
component lists, matching Rust `Path` equality (component-wise comparison). -/
structure MountPoints where
  system_mount : List String
  vendor_mount : List String
  rootfs : List String
  overlay_upper : List String
  overlay_work : List String
deriving DecidableEq

/-- `MountPoints::for_prefix` (image.rs lines 100-109): join the prefix root
with `.mounts/system`, `.mounts/vendor`, `rootfs`, `.overlay/upper`,
`.overlay/work`. -/
def MountPoints.for_prefix (root : List String) : MountPoints :=
  { system_mount := root ++ [".mounts", "system"]
    vendor_mount := root ++ [".mounts", "vendor"]
    rootfs := root ++ ["rootfs"]
    overlay_upper := root ++ [".overlay", "upper"]
    overlay_work := root ++ [".overlay", "work"] }

/-- The five derived paths of a `MountPoints` value, as a list. -/
def MountPoints.allPaths (m : MountPoints) : List (List String) :=
  [m.system_mount, m.vendor_mount, m.rootfs, m.overlay_upper, m.overlay_work]

/-! ### Container model — `crates/core/src/container.rs` -/

/-- Effects the container runtime attempts, in program order. -/
inductive CEvent where
  | ensureDirs
  | dataDirs
  | mountSystem
  | mountVendor
  | unmountSystem
  | unmountVendor
  | prepareApex
  | writeLinker
  | spawnInit
  | sigterm
  | sigkill
  | reapChild
  | writePidFile
  | removePidFile
deriving DecidableEq

/-- The `Container` struct (container.rs lines 24-40). -/
structure Container where
  init_pid : Option Nat
  system_mounted : Bool
  vendor_mounted : Bool
  overlay_mounted : Bool
  pid_file : Option String
deriving DecidableEq

/-- `Container::new`: all flags false, no pid, no pid file. -/
def Container.new : Container :=
  { init_pid := none, system_mounted := false, vendor_mounted := false,
    overlay_mounted := false, pid_file := none }

/-- `Container::with_pid_file`. -/
def Container.with_pid_file (c : Container) (p : String) : Container :=
  { c with pid_file := some p }

/-- Environment resolving every external effect `start`/`stop` performs:
which subprocess and filesystem calls succeed, what the init-binary probes
see, and the pid the spawn returns. -/
structure CEnv where
  fs : FsView
  ensureDirsOk : Bool
  dataDirsOk : Bool
  fuse2fsSystemOk : Bool
  fuse2fsVendorOk : Bool
  fusermountSystemOk : Bool
  fusermountVendorOk : Bool
  apexPrepOk : Bool
  linkerWriteOk : Bool
  initAtRoot : Bool
  initAtSystemBin : Bool
  initAtBin : Bool
  spawnOk : Bool
  spawnPid : Nat
  aliveAfterSpawn : Bool
  sigtermOk : Bool
  pidFileWriteOk : Bool

/-- `Container::fuse_mount_images` (container.rs lines 343-372): mount the
system image; on success set `system_mounted` and mount the vendor image; if
the vendor mount fails, attempt `fusermount_unmount` of the system mount
(result discarded), clear `system_mounted`, and return the error. -/
def Container.fuse_mount_images (e : CEnv) (c : Container) :
    Except CError Unit × Container × List CEvent :=
  if e.fuse2fsSystemOk then
    let c1 := { c with system_mounted := true }
    if e.fuse2fsVendorOk then
      (.ok (), { c1 with vendor_mounted := true }, [.mountSystem, .mountVendor])
    else
      (.error .mountVendorFailed, { c1 with system_mounted := false },
        [.mountSystem, .mountVendor, .unmountSystem])
  else
    (.error .mountSystemFailed, c, [.mountSystem])

/-- The three-path init-binary search of `launch_init` (container.rs lines
379-393): `/init`, then `/system/bin/init`, then `/bin/init`, earliest match
wins; `none` when no probe succeeds. -/
def initSearchResult (e : CEnv) : Option String :=
  if e.initAtRoot then some "/init"
  else if e.initAtSystemBin then some "/system/bin/init"
  else if e.initAtBin then some "/bin/init"
  else none

/-- `Container::launch_init` (container.rs lines 375-515): bail `noInitBinary`
before spawning when the three probes all fail; otherwise spawn `unshare`,
record the child pid and set `overlay_mounted`, then probe liveness after the
grace sleep and bail `initDiedImmediately` (pid stays recorded) if dead. -/
def Container.launch_init (e : CEnv) (c : Container) :
    Except CError Unit × Container × List CEvent :=
  match initSearchResult e with
  | none => (.error .noInitBinary, c, [])
  | some _ =>
    if e.spawnOk then
      let c1 := { c with init_pid := some e.spawnPid, overlay_mounted := true }
      if e.aliveAfterSpawn then
        (.ok (), c1, [.spawnInit])
      else
        (.error .initDiedImmediately, c1, [.spawnInit])
    else
      (.error .spawnFailed, c, [.spawnInit])

/-- `Container::start` (container.rs lines 66-108): validate, ensure mount
dirs, prepare the overlay data dirs, FUSE-mount the images, pre-create APEX
dirs, write the linker config, launch init, then persist the pid file (write
failure only logged). -/
def Container.start (e : CEnv) (c : Container) :
    Except CError Unit × Container × List CEvent :=
  match ImagePaths.validate e.fs with
  | .error err => (.error err, c, [])
  | .ok _ =>
    if e.ensureDirsOk then
      if e.dataDirsOk then
        match Container.fuse_mount_images e c with
        | (.ok _, c1, tr1) =>
          if e.apexPrepOk then
            if e.linkerWriteOk then
              match Container.launch_init e c1 with
              | (.ok _, c2, tr2) =>
                let tr3 := match c2.init_pid, c2.pid_file with
                  | some _, some _ => [CEvent.writePidFile]
                  | _, _ => []
                (.ok (), c2,
                  [CEvent.ensureDirs, CEvent.dataDirs] ++ tr1
                    ++ [CEvent.prepareApex, CEvent.writeLinker] ++ tr2 ++ tr3)
              | (.error err, c2, tr2) =>
                (.error err, c2,
                  [CEvent.ensureDirs, CEvent.dataDirs] ++ tr1
                    ++ [CEvent.prepareApex, CEvent.writeLinker] ++ tr2)
            else
              (.error .linkerFailed, c1,
                [CEvent.ensureDirs, CEvent.dataDirs] ++ tr1
                  ++ [CEvent.prepareApex, CEvent.writeLinker])
          else
            (.error .apexFailed, c1,
              [CEvent.ensureDirs, CEvent.dataDirs] ++ tr1 ++ [CEvent.prepareApex])
        | (.error err, c1, tr1) =>
          (.error err, c1, [CEvent.ensureDirs, CEvent.dataDirs] ++ tr1)
      else (.error .dataDirsFailed, c, [CEvent.ensureDirs, CEvent.dataDirs])
    else (.error .ensureDirsFailed, c, [CEvent.ensureDirs])

/-- `Container::fuse_unmount_all` (container.rs lines 518-549): for each
flagged mount attempt `fusermount_unmount`, clearing the flag on success and
collecting the message on failure; clear `overlay_mounted`; failures are only
warned about and the function always returns `Ok(())`. -/
def Container.fuse_unmount_all (e : CEnv) (c : Container) :
    Except CError Unit × Container × List CEvent :=
  let s1 : Container × List CEvent :=
    if c.vendor_mounted then
      if e.fusermountVendorOk then
        ({ c with vendor_mounted := false }, [CEvent.unmountVendor])
      else (c, [CEvent.unmountVendor])
    else (c, [])
  let s2 : Container × List CEvent :=
    if s1.1.system_mounted then
      if e.fusermountSystemOk then
        ({ s1.1 with system_mounted := false }, [CEvent.unmountSystem])
      else (s1.1, [CEvent.unmountSystem])
    else (s1.1, [])
  (.ok (), { s2.1 with overlay_mounted := false }, s1.2 ++ s2.2)

/-- `Container::stop` (container.rs lines 111-138): `init_pid.take()` clears
the pid unconditionally; if a pid was present, SIGTERM (on success: grace
sleep, SIGKILL, non-blocking reap); then `fuse_unmount_all` (its error, were
there one, would propagate through `?`); then best-effort pid-file removal. -/
def Container.stop (e : CEnv) (c : Container) :
    Except CError Unit × Container × List CEvent :=
  let s1 : Container × List CEvent :=
    match c.init_pid with
    | some _ =>
      if e.sigtermOk then
        ({ c with init_pid := none }, [CEvent.sigterm, CEvent.sigkill, CEvent.reapChild])
      else
        ({ c with init_pid := none }, [CEvent.sigterm])
    | none => (c, [])
  match Container.fuse_unmount_all e s1.1 with
  | (.ok _, c2, t2) =>
    let t3 : List CEvent := match c2.pid_file with
      | some _ => [CEvent.removePidFile]
      | none => []
    (.ok (), c2, s1.2 ++ t2 ++ t3)
  | (.error err, c2, t2) => (.error err, c2, s1.2 ++ t2)

/-- `Container::is_running` (container.rs lines 214-221): a zero-signal probe
against the tracked pid; `false` when no pid is tracked. -/
def Container.is_running (aliveProbe : Bool) (c : Container) : Bool :=
  match c.init_pid with
  | some _ => aliveProbe
  | none => false

/-! ### Boot wait — `Container::wait_for_boot` (container.rs lines 224-261) -/

/-- Per-iteration observations of the polling loop: whether the zero-signal
probe sees the init process alive, and what `getprop sys.boot_completed`
returns through `exec_command` (`none` when `exec_command` itself errors). -/
structure BootEnv where
  alive : Nat → Bool
  getprop : Nat → Option String

/-- Whether iteration `i` does NOT observe boot completion (either
`exec_command` failed, or the trimmed stdout differs from `"1"`). -/
def bootNotSeen (env : BootEnv) (i : Nat) : Bool :=
  match env.getprop i with
  | some out => !(out.trim == "1")
  | none => true

/-- The polling loop of `wait_for_boot`.  Each iteration: bail `bootTimeout`
when the elapsed time exceeds the timeout, bail `processDied` when the
liveness probe fails, return `Ok` when the boot property reads `"1"`, else
sleep 2 s and loop.  Time is counted in seconds; the 2-second sleep is the
only time spent, so the elapsed time at iteration `i` is `2 * i`.  The second
component of the result is the iteration index at which the loop exits. -/
def waitLoop (env : BootEnv) (timeout iter elapsed : Nat) :
    Except CError Unit × Nat :=
  if h : elapsed > timeout then (.error .bootTimeout, iter)
  else if env.alive iter = false then (.error .processDied, iter)
  else
    match env.getprop iter with
    | some out =>
      if out.trim = "1" then (.ok (), iter)
      else waitLoop env timeout (iter + 1) (elapsed + 2)
    | none => waitLoop env timeout (iter + 1) (elapsed + 2)
termination_by timeout + 1 - elapsed
decreasing_by
  all_goals omega

/-- `Container::wait_for_boot`: run the polling loop from iteration 0,
elapsed 0. -/
def Container.wait_for_boot (env : BootEnv) (timeout_secs : Nat) :
    Except CError Unit × Nat :=
  waitLoop env timeout_secs 0 0

/-! ### Namespace entry — `crates/sandbox/src/lib.rs` -/

/-- Which fallible steps of `enter_namespaces` succeed. -/
structure NsEnv where
  unshareUserOk : Bool
  writeUidMapOk : Bool
  writeSetgroupsOk : Bool
  writeGidMapOk : Bool
  unshareMountOk : Bool

/-- Steps of `enter_namespaces`, recorded when attempted. -/
inductive NsEvent where
  | getUid
  | getGid
  | unshareUser
  | writeUidMap
  | writeSetgroups
  | writeGidMap
  | unshareMount
deriving DecidableEq

/-- The uid-mapping line `format!("0 {} 1", uid)` written by
`setup_uid_gid_mapping` (lib.rs line 127). -/
def uid_map_line (uid : Nat) : String := "0 " ++ Nat.repr uid ++ " 1"

/-- The gid-mapping line `format!("0 {} 1", gid)` (lib.rs line 134). -/
def gid_map_line (gid : Nat) : String := "0 " ++ Nat.repr gid ++ " 1"

/-- `setup_uid_gid_mapping` (lib.rs lines 120-140): write the uid map, then
`"deny"` to setgroups, then the gid map, each through `?`.  The third result
component lists the `(path, content)` writes in the order attempted. -/
def setup_uid_gid_mapping (e : NsEnv) (uid gid : Nat) :
    Except Unit Unit × List NsEvent × List (String × String) :=
  if e.writeUidMapOk then
    if e.writeSetgroupsOk then
      if e.writeGidMapOk then
        (.ok (), [.writeUidMap, .writeSetgroups, .writeGidMap],
          [("/proc/self/uid_map", uid_map_line uid),
           ("/proc/self/setgroups", "deny"),
           ("/proc/self/gid_map", gid_map_line gid)])
      else
        (.error (), [.writeUidMap, .writeSetgroups, .writeGidMap],
          [("/proc/self/uid_map", uid_map_line uid),
           ("/proc/self/setgroups", "deny"),
           ("/proc/self/gid_map", gid_map_line gid)])
    else
      (.error (), [.writeUidMap, .writeSetgroups],
        [("/proc/self/uid_map", uid_map_line uid),
         ("/proc/self/setgroups", "deny")])
  else
    (.error (), [.writeUidMap],
      [("/proc/self/uid_map", uid_map_line uid)])

/-- `enter_namespaces` (lib.rs lines 24-43): capture the real uid and gid,
unshare the user namespace, run `setup_uid_gid_mapping`, then unshare the
mount namespace; each fallible step propagates through `?`. -/
def enter_namespaces (e : NsEnv) (uid gid : Nat) :
    Except Unit Unit × List NsEvent × List (String × String) :=
  let pre : List NsEvent := [.getUid, .getGid, .unshareUser]
  if e.unshareUserOk then
    match setup_uid_gid_mapping e uid gid with
    | (.ok _, tr, ws) =>
      if e.unshareMountOk then (.ok (), pre ++ tr ++ [.unshareMount], ws)
      else (.error (), pre ++ tr ++ [.unshareMount], ws)
    | (.error _, tr, ws) => (.error (), pre ++ tr, ws)
  else
    (.error (), pre, [])

/-- The trace of attempted steps of an `enter_namespaces` run. -/
def nsTrace (e : NsEnv) (uid gid : Nat) : List NsEvent :=
  (enter_namespaces e uid gid).2.1

/-- The result of an `enter_namespaces` run. -/
def nsResult (e : NsEnv) (uid gid : Nat) : Except Unit Unit :=
  (enter_namespaces e uid gid).1

/-- `a` occurs strictly before `b` in `tr` whenever `b` occurs at all. -/
abbrev eventBefore (a b : NsEvent) (tr : List NsEvent) : Prop :=
  b ∈ tr → a ∈ tr ∧ List.indexOf a tr < List.indexOf b tr

/-! ### Binderfs provisioning — `crates/sandbox/src/binderfs.rs` -/

/-- External observations of `create_devices`: whether opening
`binder-control` succeeds, the ioctl return per device name, and the OS error
captured when an ioctl returns a negative value. -/
structure BinderEnv where
  openControlOk : Bool
  ioctlRet : String → Int
  osError : String → Nat

/-- The fixed device list of `create_devices` (binderfs.rs line 113). -/
def binderDeviceNames : List String := ["binder", "hwbinder", "vndbinder"]

/-- The per-device loop of `create_devices`: issue one `BINDER_CTL_ADD` ioctl
per name; a negative return bails with the name and captured OS error before
any later name is attempted.  The second component is the ordered list of
names for which an ioctl was issued. -/
def createDevicesGo (e : BinderEnv) : List String → Except (String × Nat) Unit × List String
  | [] => (.ok (), [])
  | d :: rest =>
    if e.ioctlRet d < 0 then
      (.error (d, e.osError d), [d])
    else
      let r := createDevicesGo e rest
      (r.1, d :: r.2)

/-- `BinderfsInstance::create_devices` (binderfs.rs lines 101-135): open the
`binder-control` device, then run the ioctl loop over the three fixed names. -/
def BinderfsInstance.create_devices (e : BinderEnv) :
    Except (String × Nat) Unit × List String :=
  if e.openControlOk then createDevicesGo e binderDeviceNames
  else (.error ("binder-control", e.osError "binder-control"), [])

/-! ### Whitespace-field splitting (for the mapping-line claims) -/

/-- Extend the first field of a split with a leading character. -/
def splitSpCons (c : Char) : List (List Char) → List (List Char)
  | [] => [[c]]
  | f :: r => (c :: f) :: r

/-- Split a character list into its space-separated fields. -/
def splitSp : List Char → List (List Char)
  | [] => [[]]
  | c :: cs => if c = ' ' then [] :: splitSp cs else splitSpCons c (splitSp cs)

/-! ### Concrete environments used by the witnesses -/

/-- A filesystem view with both images present and a 600 MiB system image. -/
def fsAllOk : FsView :=
  { systemImgExists := true, vendorImgExists := true,
    systemImgSize := 600 * 1024 * 1024, vendorImgSize := 200 * 1024 * 1024 }

/-- A filesystem view with the system image absent. -/
def fsNoSystem : FsView := { fsAllOk with systemImgExists := false }

/-- A filesystem view with an undersized (100 MiB) system image. -/
def fsSmallSystem : FsView := { fsAllOk with systemImgSize := 100 * 1024 * 1024 }

/-- A container environment where every external call succeeds and the init
binary is found at `/init`. -/
def cenvAllOk : CEnv :=
  { fs := fsAllOk
    ensureDirsOk := true, dataDirsOk := true
    fuse2fsSystemOk := true, fuse2fsVendorOk := true
    fusermountSystemOk := true, fusermountVendorOk := true
    apexPrepOk := true, linkerWriteOk := true
    initAtRoot := true, initAtSystemBin := false, initAtBin := false
    spawnOk := true, spawnPid := 4242, aliveAfterSpawn := true
    sigtermOk := true, pidFileWriteOk := true }

/-- Like `cenvAllOk` but the vendor-image FUSE mount fails. -/
def cenvVendorFail : CEnv := { cenvAllOk with fuse2fsVendorOk := false }

/-- Like `cenvAllOk` but no init binary exists at any of the three probed
paths. -/
def cenvNoInit : CEnv :=
  { cenvAllOk with initAtRoot := false, initAtSystemBin := false, initAtBin := false }

/-- A namespace environment where every step succeeds. -/
def nsAllOk : NsEnv :=
  { unshareUserOk := true, writeUidMapOk := true, writeSetgroupsOk := true,
    writeGidMapOk := true, unshareMountOk := true }

/-- A binderfs environment where the `hwbinder` ioctl fails with `EACCES`
(13) and the other two would succeed. -/
def benvHwFail : BinderEnv :=
  { openControlOk := true
    ioctlRet := fun d => if d = "hwbinder" then -1 else 0
    osError := fun _ => 13 }

/-- A boot environment whose tracked process is already dead and whose
`getprop` never runs. -/
def bootDead : BootEnv :=
  { alive := fun _ => false, getprop := fun _ => none }

/-- Like `cenvAllOk` but SIGTERM and both FUSE unmounts fail. -/
def cenvUnmountFail : CEnv :=
  { cenvAllOk with
    sigtermOk := false
    fusermountSystemOk := false
    fusermountVendorOk := false }

/-- A running container: tracked pid, both images mounted, pid-file set. -/
def cRunning : Container :=
  { init_pid := some 4242, system_mounted := true, vendor_mounted := true,
    overlay_mounted := true, pid_file := some "/tmp/rad.pid" }

/-! ## Helper lemmas -/

theorem digitChar_ne_space (d : Nat) : Nat.digitChar d ≠ ' ' := by
  rcases Nat.lt_or_ge d 16 with h | h
  · interval_cases d <;> decide
  · obtain ⟨n, rfl⟩ : ∃ n, d = n + 16 := ⟨d - 16, by omega⟩
    simp only [Nat.digitChar]
    repeat rw [if_neg (by omega)]
    decide

theorem toDigitsCore_no_space (b : Nat) :
    ∀ (fuel n : Nat) (ds : List Char), (∀ c ∈ ds, c ≠ ' ') →
      ∀ c ∈ Nat.toDigitsCore b fuel n ds, c ≠ ' ' := by
  intro fuel
  induction fuel with
  | zero =>
    intro n ds h
    simpa [Nat.toDigitsCore] using h
  | succ fuel ih =>
    intro n ds h c hc
    rw [Nat.toDigitsCore] at hc
    by_cases hz : n / b = 0
    · simp only [hz, if_true] at hc
      rcases List.mem_cons.mp hc with rfl | hmem
      · exact digitChar_ne_space _
      · exact h _ hmem
    · simp only [hz, if_false] at hc
      refine ih (n / b) (Nat.digitChar (n % b) :: ds) ?_ c hc
      intro x hx
      rcases List.mem_cons.mp hx with rfl | hmem
      · exact digitChar_ne_space _
      · exact h _ hmem

/-- The decimal representation of a natural number contains no space. -/
theorem repr_no_space (n : Nat) : ∀ c ∈ (Nat.repr n).data, c ≠ ' ' := by
  intro c hc
  have hd : (Nat.repr n).data = Nat.toDigits 10 n := rfl
  rw [hd] at hc
  exact toDigitsCore_no_space 10 (n + 1) n [] (by simp) c hc

theorem splitSp_cons (c : Char) (cs : List Char) :
    splitSp (c :: cs) = if c = ' ' then [] :: splitSp cs else splitSpCons c (splitSp cs) :=
  rfl

theorem splitSp_no_space_append (l r : List Char) (h : ∀ c ∈ l, c ≠ ' ') :
    splitSp (l ++ ' ' :: r) = l :: splitSp r := by
  induction l with
  | nil => simp [splitSp]
  | cons a l ih =>
    have ha : a ≠ ' ' := h a (by simp)
    have ih' := ih (fun c hc => h c (by simp [hc]))
    rw [List.cons_append, splitSp_cons, if_neg ha, ih']
    rfl

theorem map_line_data (s : String) :
    ("0 " ++ s ++ " 1").data = '0' :: ' ' :: (s.data ++ [' ', '1']) := by
  cases s with
  | mk l => rfl

/-- A `"0 {n} 1"` mapping line splits into the fields `0`, `{n}`, `1`. -/
theorem map_line_fields (n : Nat) :
    splitSp ("0 " ++ Nat.repr n ++ " 1").data = [['0'], (Nat.repr n).data, ['1']] := by
  rw [map_line_data (Nat.repr n)]
  show splitSp (['0'] ++ ' ' :: ((Nat.repr n).data ++ ' ' :: ['1'])) = _
  rw [splitSp_no_space_append ['0'] _ (by decide),
    splitSp_no_space_append _ ['1'] (repr_no_space n)]
  rfl

/-! ## Claim theorems -/

/-- C3: for every u32 uid and gid (including 0 and 65534), the uid-mapping
and gid-mapping strings produced by `setup_uid_gid_mapping` each have exactly
three whitespace-separated fields: `"0"`, the decimal outer id, and `"1"`. -/
theorem mapping_lines_three_fields (uid gid : Nat)
    (hu : uid < 2 ^ 32) (hg : gid < 2 ^ 32) :
    splitSp (uid_map_line uid).data = [['0'], (Nat.repr uid).data, ['1']] ∧
    splitSp (gid_map_line gid).data = [['0'], (Nat.repr gid).data, ['1']] ∧
    (setup_uid_gid_mapping nsAllOk uid gid).2.2 =
      [("/proc/self/uid_map", uid_map_line uid),
       ("/proc/self/setgroups", "deny"),
       ("/proc/self/gid_map", gid_map_line gid)] :=
  ⟨map_line_fields uid, map_line_fields gid, rfl⟩

/-- C7: `ImagePaths::validate` returns image-not-found when either image
path is absent, image-too-small when both exist but the system image is under
the 500 MiB threshold, success otherwise; the vendor image size is never
checked. -/
theorem validate_spec (fs : FsView) :
    ((fs.systemImgExists = false ∨ fs.vendorImgExists = false) →
      ImagePaths.validate fs = .error .imageNotFound) ∧
    (fs.systemImgExists = true → fs.vendorImgExists = true →
      fs.systemImgSize < minSystemImageSize →
      ImagePaths.validate fs = .error .imageTooSmall) ∧
    (fs.systemImgExists = true → fs.vendorImgExists = true →
      minSystemImageSize ≤ fs.systemImgSize →
      ImagePaths.validate fs = .ok ()) ∧
    (∀ n : Nat, ImagePaths.validate { fs with vendorImgSize := n } = ImagePaths.validate fs) := by
  obtain ⟨se, ve, ss, vs⟩ := fs
  cases se <;> cases ve <;>
    by_cases hss : ss < minSystemImageSize <;>
      simp_all [ImagePaths.validate]

/-- Witness for C7: a missing system image, an undersized system image, and a
valid pair. -/
theorem validate_spec_witness :
    ImagePaths.validate fsNoSystem = .error .imageNotFound ∧
    ImagePaths.validate fsSmallSystem = .error .imageTooSmall ∧
    ImagePaths.validate fsAllOk = .ok () :=
  ⟨(validate_spec fsNoSystem).1 (Or.inl rfl),
   (validate_spec fsSmallSystem).2.1 rfl rfl (by norm_num [fsSmallSystem, fsAllOk, minSystemImageSize]),
   (validate_spec fsAllOk).2.2.1 rfl rfl (by norm_num [fsAllOk, minSystemImageSize])⟩

/-- C1: in `fuse_mount_images` the system mount is attempted first, the
vendor image is mounted only when the system mount succeeded, and every
failing call leaves both mount flags false; on a vendor-mount failure the
system mount is unmounted and its flag cleared before the error returns. -/
theorem fuse_mount_images_rollback (e : CEnv) (c : Container)
    (hs : c.system_mounted = false) (hv : c.vendor_mounted = false) :
    ((Container.fuse_mount_images e c).2.2.take 1 = [CEvent.mountSystem]) ∧
    (CEvent.mountVendor ∈ (Container.fuse_mount_images e c).2.2 →
      e.fuse2fsSystemOk = true) ∧
    (∀ err, (Container.fuse_mount_images e c).1 = .error err →
      (Container.fuse_mount_images e c).2.1.system_mounted = false ∧
      (Container.fuse_mount_images e c).2.1.vendor_mounted = false) ∧
    ((Container.fuse_mount_images e c).1 = .error .mountVendorFailed →
      CEvent.unmountSystem ∈ (Container.fuse_mount_images e c).2.2 ∧
      (Container.fuse_mount_images e c).2.1.system_mounted = false) := by
  cases hsm : e.fuse2fsSystemOk <;> cases hvm : e.fuse2fsVendorOk <;>
    simp [Container.fuse_mount_images, hsm, hvm, hs, hv]

/-- Witness for C1: the vendor mount fails, both flags end false and the
system unmount was attempted. -/
theorem fuse_mount_images_rollback_witness :
    (Container.fuse_mount_images cenvVendorFail Container.new).1 = .error .mountVendorFailed ∧
    (Container.fuse_mount_images cenvVendorFail Container.new).2.1.system_mounted = false ∧
    (Container.fuse_mount_images cenvVendorFail Container.new).2.1.vendor_mounted = false ∧
    CEvent.unmountSystem ∈ (Container.fuse_mount_images cenvVendorFail Container.new).2.2 := by
  have h := fuse_mount_images_rollback cenvVendorFail Container.new rfl rfl
  exact ⟨by decide, (h.2.2.1 .mountVendorFailed (by decide)).1,
    (h.2.2.1 .mountVendorFailed (by decide)).2, (h.2.2.2 (by decide)).1⟩

/-- The step trace of `enter_namespaces` does not depend on the uid/gid
values, only on which steps succeed. -/
theorem nsTrace_const (e : NsEnv) (uid gid : Nat) : nsTrace e uid gid = nsTrace e 0 0 := by
  obtain ⟨u, w1, w2, w3, m⟩ := e
  cases u <;> cases w1 <;> cases w2 <;> cases w3 <;> cases m <;> rfl

/-- The result of `enter_namespaces` does not depend on the uid/gid values. -/
theorem nsResult_const (e : NsEnv) (uid gid : Nat) : nsResult e uid gid = nsResult e 0 0 := by
  obtain ⟨u, w1, w2, w3, m⟩ := e
  cases u <;> cases w1 <;> cases w2 <;> cases w3 <;> cases m <;> rfl

/-- C4: `enter_namespaces` captures the uid/gid before unsharing the user
namespace, writes the uid map first, writes `deny` to setgroups strictly
before the gid map, enters the mount namespace only after both mappings
succeeded, and any failing step aborts without attempting later steps. -/
theorem enter_namespaces_ordering (e : NsEnv) (uid gid : Nat) :
    ((nsTrace e uid gid).take 3 = [NsEvent.getUid, NsEvent.getGid, NsEvent.unshareUser]) ∧
    eventBefore NsEvent.writeUidMap NsEvent.writeSetgroups (nsTrace e uid gid) ∧
    eventBefore NsEvent.writeSetgroups NsEvent.writeGidMap (nsTrace e uid gid) ∧
    eventBefore NsEvent.writeUidMap NsEvent.unshareMount (nsTrace e uid gid) ∧
    eventBefore NsEvent.writeGidMap NsEvent.unshareMount (nsTrace e uid gid) ∧
    (NsEvent.unshareMount ∈ nsTrace e uid gid →
      e.writeUidMapOk = true ∧ e.writeSetgroupsOk = true ∧ e.writeGidMapOk = true) ∧
    (e.unshareUserOk = false →
      nsResult e uid gid = .error () ∧
      nsTrace e uid gid = [NsEvent.getUid, NsEvent.getGid, NsEvent.unshareUser]) ∧
    (e.unshareUserOk = true → e.writeUidMapOk = false →
      nsResult e uid gid = .error () ∧
      nsTrace e uid gid =
        [NsEvent.getUid, NsEvent.getGid, NsEvent.unshareUser, NsEvent.writeUidMap]) ∧
    (e.unshareUserOk = true → e.writeUidMapOk = true → e.writeSetgroupsOk = false →
      nsResult e uid gid = .error () ∧
      nsTrace e uid gid =
        [NsEvent.getUid, NsEvent.getGid, NsEvent.unshareUser, NsEvent.writeUidMap,
         NsEvent.writeSetgroups]) ∧
    (e.unshareUserOk = true → e.writeUidMapOk = true → e.writeSetgroupsOk = true →
      e.writeGidMapOk = false →
      nsResult e uid gid = .error () ∧
      nsTrace e uid gid =
        [NsEvent.getUid, NsEvent.getGid, NsEvent.unshareUser, NsEvent.writeUidMap,
         NsEvent.writeSetgroups, NsEvent.writeGidMap]) ∧
    (e.unshareUserOk = true → e.writeUidMapOk = true → e.writeSetgroupsOk = true →
      e.writeGidMapOk = true → e.unshareMountOk = false →
      nsResult e uid gid = .error () ∧
      nsTrace e uid gid =
        [NsEvent.getUid, NsEvent.getGid, NsEvent.unshareUser, NsEvent.writeUidMap,
         NsEvent.writeSetgroups, NsEvent.writeGidMap, NsEvent.unshareMount]) := by
  rw [nsTrace_const e uid gid, nsResult_const e uid gid]
  obtain ⟨u, w1, w2, w3, m⟩ := e
  cases u <;> cases w1 <;> cases w2 <;> cases w3 <;> cases m <;>
    exact ⟨by decide, by decide, by decide, by decide, by decide, by decide, by decide,
      by decide, by decide, by decide, by decide⟩

/-- Witness for C4 on the all-success environment. -/
theorem enter_namespaces_ordering_witness :
    (nsTrace nsAllOk 1000 1000).take 3 =
      [NsEvent.getUid, NsEvent.getGid, NsEvent.unshareUser] ∧
    (NsEvent.writeUidMap ∈ nsTrace nsAllOk 1000 1000 ∧
      List.indexOf NsEvent.writeUidMap (nsTrace nsAllOk 1000 1000) <
        List.indexOf NsEvent.writeSetgroups (nsTrace nsAllOk 1000 1000)) := by
  have h := enter_namespaces_ordering nsAllOk 1000 1000
  exact ⟨h.1, h.2.1 (by decide)⟩

/-- C5: `create_devices` issues the device-creation ioctls in the fixed order
binder, hwbinder, vndbinder — exactly three when all succeed — and a negative
return aborts with the captured OS error before any later name is tried. -/
theorem create_devices_order (e : BinderEnv) (hopen : e.openControlOk = true) :
    (0 ≤ e.ioctlRet "binder" → 0 ≤ e.ioctlRet "hwbinder" → 0 ≤ e.ioctlRet "vndbinder" →
      BinderfsInstance.create_devices e = (.ok (), ["binder", "hwbinder", "vndbinder"])) ∧
    (e.ioctlRet "binder" < 0 →
      BinderfsInstance.create_devices e =
        (.error ("binder", e.osError "binder"), ["binder"])) ∧
    (0 ≤ e.ioctlRet "binder" → e.ioctlRet "hwbinder" < 0 →
      BinderfsInstance.create_devices e =
        (.error ("hwbinder", e.osError "hwbinder"), ["binder", "hwbinder"])) ∧
    (0 ≤ e.ioctlRet "binder" → 0 ≤ e.ioctlRet "hwbinder" → e.ioctlRet "vndbinder" < 0 →
      BinderfsInstance.create_devices e =
        (.error ("vndbinder", e.osError "vndbinder"),
         ["binder", "hwbinder", "vndbinder"])) := by
  refine ⟨?_, ?_, ?_, ?_⟩
  · intro h1 h2 h3
    have n1 : ¬ e.ioctlRet "binder" < 0 := by omega
    have n2 : ¬ e.ioctlRet "hwbinder" < 0 := by omega
    have n3 : ¬ e.ioctlRet "vndbinder" < 0 := by omega
    simp [BinderfsInstance.create_devices, hopen, binderDeviceNames, createDevicesGo,
      n1, n2, n3]
  · intro h1
    simp [BinderfsInstance.create_devices, hopen, binderDeviceNames, createDevicesGo, h1]
  · intro h1 h2
    have n1 : ¬ e.ioctlRet "binder" < 0 := by omega
    simp [BinderfsInstance.create_devices, hopen, binderDeviceNames, createDevicesGo,
      n1, h2]
  · intro h1 h2 h3
    have n1 : ¬ e.ioctlRet "binder" < 0 := by omega
    have n2 : ¬ e.ioctlRet "hwbinder" < 0 := by omega
    simp [BinderfsInstance.create_devices, hopen, binderDeviceNames, createDevicesGo,
      n1, n2, h3]

/-- Witness for C5: the hwbinder ioctl fails with errno 13, so exactly the
first two ioctls run and the error carries the captured errno. -/
theorem create_devices_order_witness :
    BinderfsInstance.create_devices benvHwFail =
      (.error ("hwbinder", 13), ["binder", "hwbinder"]) := by
  have h := create_devices_order benvHwFail rfl
  exact h.2.2.1 (by decide) (by decide)

theorem ne_append_of_getLast?_ne {p q sx sy : List String}
    (hx : sx ≠ []) (hy : sy ≠ []) (h : sx.getLast? ≠ sy.getLast?) :
    p ++ sx ≠ q ++ sy := by
  intro he
  apply h
  rw [← List.getLast?_append_of_ne_nil p hx, he, List.getLast?_append_of_ne_nil q hy]

theorem ne_append_same_of_ne {p q s : List String} (hpq : p ≠ q) : p ++ s ≠ q ++ s :=
  fun he => hpq (List.append_inj_left' he rfl)

/-- C6: the five paths `for_prefix` derives from two distinct sandbox roots
are pairwise disjoint across the roots. -/
theorem for_prefix_paths_disjoint (p q : List String) (hpq : p ≠ q) :
    ∀ x ∈ MountPoints.allPaths (MountPoints.for_prefix p),
      ∀ y ∈ MountPoints.allPaths (MountPoints.for_prefix q), x ≠ y := by
  intro x hx y hy
  simp only [MountPoints.allPaths, MountPoints.for_prefix, List.mem_cons,
    List.not_mem_nil, or_false] at hx hy
  rcases hx with rfl | rfl | rfl | rfl | rfl <;>
    rcases hy with rfl | rfl | rfl | rfl | rfl <;>
      first
        | exact ne_append_same_of_ne hpq
        | exact ne_append_of_getLast?_ne (by decide) (by decide) (by decide)

/-- Witness for C6 with the distinct roots `["a"]` and `["b"]`. -/
theorem for_prefix_paths_disjoint_witness :
    (MountPoints.for_prefix ["a"]).system_mount ≠
      (MountPoints.for_prefix ["b"]).system_mount :=
  for_prefix_paths_disjoint ["a"] ["b"] (by decide) _ (by decide) _ (by decide)

/-- C8: `stop` runs teardown to completion regardless of the process-stop
outcome: it always returns `Ok`, attempts to unmount whichever FUSE image is
flagged mounted, removes the pid-file when one is configured, and unmount
failures never surface as an error (`fuse_unmount_all` itself always returns
`Ok`). -/
theorem stop_teardown_complete (e : CEnv) (c : Container) :
    (Container.stop e c).1 = .ok () ∧
    (Container.fuse_unmount_all e c).1 = .ok () ∧
    (c.vendor_mounted = true → CEvent.unmountVendor ∈ (Container.stop e c).2.2) ∧
    (c.system_mounted = true → CEvent.unmountSystem ∈ (Container.stop e c).2.2) ∧
    (c.pid_file.isSome = true → CEvent.removePidFile ∈ (Container.stop e c).2.2) := by
  obtain ⟨ip, sm, vm, om, pf⟩ := c
  cases ip <;> cases sm <;> cases vm <;> cases pf <;>
    cases hsig : e.sigtermOk <;> cases h1 : e.fusermountVendorOk <;>
      cases h2 : e.fusermountSystemOk <;>
        simp [Container.stop, Container.fuse_unmount_all, hsig, h1, h2]

/-- Witness for C8: a fully mounted container with a pid-file where SIGTERM
and both unmounts fail — `stop` still returns `Ok` and attempts everything. -/
theorem stop_teardown_complete_witness :
    (Container.stop cenvUnmountFail cRunning).1 = .ok () ∧
    CEvent.unmountVendor ∈ (Container.stop cenvUnmountFail cRunning).2.2 ∧
    CEvent.unmountSystem ∈ (Container.stop cenvUnmountFail cRunning).2.2 ∧
    CEvent.removePidFile ∈ (Container.stop cenvUnmountFail cRunning).2.2 := by
  have h := stop_teardown_complete cenvUnmountFail cRunning
  exact ⟨h.1, h.2.2.1 rfl, h.2.2.2.1 rfl, h.2.2.2.2 rfl⟩

/-- C10: `stop` always returns success and unconditionally clears the tracked
init pid (`init_pid.take()` runs before any fallible teardown step), so after
any `stop` call `init_pid` is `none` and `is_running` is false regardless of
the probe outcome. -/
theorem stop_clears_pid (e : CEnv) (c : Container) :
    (Container.stop e c).1 = .ok () ∧
    (Container.stop e c).2.1.init_pid = none ∧
    (∀ probe : Bool, Container.is_running probe (Container.stop e c).2.1 = false) := by
  obtain ⟨ip, sm, vm, om, pf⟩ := c
  cases ip <;> cases sm <;> cases vm <;> cases pf <;>
    cases hsig : e.sigtermOk <;> cases h1 : e.fusermountVendorOk <;>
      cases h2 : e.fusermountSystemOk <;>
        simp [Container.stop, Container.fuse_unmount_all, Container.is_running,
          hsig, h1, h2]

/-- C2 counterexample: with valid images, every mount and config step
succeeding and no init binary at any of the three probed paths, `start`
returns the missing-init-binary error while BOTH FUSE mount-state flags are
`true` — refuting the claim that this failure leaves both flags false. -/
theorem start_no_init_counterexample :
    (Container.start cenvNoInit Container.new).1 = .error .noInitBinary ∧
    (Container.start cenvNoInit Container.new).2.1.system_mounted = true ∧
    (Container.start cenvNoInit Container.new).2.1.vendor_mounted = true :=
  ⟨rfl, rfl, rfl⟩

/-- C2 (amended): when the images validate, every directory/mount/config step
succeeds and no init binary exists at any of the three probed paths, `start`
fails with the missing-init-binary error before any process is spawned — no
spawn is attempted and `init_pid` stays `none` — but the FUSE mounts
performed earlier in `start` remain: both mount-state flags are `true` when
the error returns (they are cleared only by a later `stop`/drop teardown). -/
theorem start_no_init_pre_spawn (e : CEnv) (c : Container)
    (hpid : c.init_pid = none)
    (hval : ImagePaths.validate e.fs = .ok ())
    (h1 : e.ensureDirsOk = true) (h2 : e.dataDirsOk = true)
    (h3 : e.fuse2fsSystemOk = true) (h4 : e.fuse2fsVendorOk = true)
    (h5 : e.apexPrepOk = true) (h6 : e.linkerWriteOk = true)
    (h7 : e.initAtRoot = false) (h8 : e.initAtSystemBin = false)
    (h9 : e.initAtBin = false) :
    (Container.start e c).1 = .error .noInitBinary ∧
    (Container.start e c).2.1.init_pid = none ∧
    CEvent.spawnInit ∉ (Container.start e c).2.2 ∧
    (Container.start e c).2.1.system_mounted = true ∧
    (Container.start e c).2.1.vendor_mounted = true := by
  simp [Container.start, hval, h1, h2, h3, h4, h5, h6,
    Container.fuse_mount_images, Container.launch_init, initSearchResult,
    h7, h8, h9, hpid]

/-- Witness for the amended C2 on the concrete no-init environment. -/
theorem start_no_init_pre_spawn_witness :
    (Container.start cenvNoInit Container.new).2.1.init_pid = none ∧
    CEvent.spawnInit ∉ (Container.start cenvNoInit Container.new).2.2 := by
  have h := start_no_init_pre_spawn cenvNoInit Container.new rfl rfl rfl rfl rfl rfl
    rfl rfl rfl rfl rfl
  exact ⟨h.2.1, h.2.2.1⟩

/-- The polling loop returns the process-died error at the first iteration
that observes the process dead, provided every earlier iteration saw it
alive without boot completion and the deadline has not yet passed. -/
theorem waitLoop_dies (env : BootEnv) (timeout : Nat) :
    ∀ (n iter : Nat),
      env.alive (iter + n) = false →
      (∀ i, i < n → env.alive (iter + i) = true ∧ bootNotSeen env (iter + i) = true) →
      2 * (iter + n) ≤ timeout →
      waitLoop env timeout iter (2 * iter) = (.error .processDied, iter + n) := by
  intro n
  induction n with
  | zero =>
    intro iter h0 _ ht
    rw [waitLoop]
    have hng : ¬ 2 * iter > timeout := by omega
    rw [dif_neg hng]
    simp only [Nat.add_zero] at h0
    simp [h0]
  | succ n ih =>
    intro iter h0 hpre ht
    have ha : env.alive iter = true := by
      have := (hpre 0 (by omega)).1
      simpa using this
    have hb : bootNotSeen env iter = true := by
      have := (hpre 0 (by omega)).2
      simpa using this
    have hng : ¬ 2 * iter > timeout := by omega
    rw [waitLoop, dif_neg hng]
    have hshift : iter + (n + 1) = (iter + 1) + n := by omega
    have h2 : 2 * iter + 2 = 2 * (iter + 1) := by omega
    have ihx := ih (iter + 1)
      (by rw [← hshift]; exact h0)
      (by intro i hi
          have hx := hpre (i + 1) (by omega)
          have heq : iter + (i + 1) = iter + 1 + i := by omega
          constructor
          · have := hx.1
            rwa [heq] at this
          · have := hx.2
            rwa [heq] at this)
      (by omega)
    rcases hgp : env.getprop iter with _ | out
    · simp [ha, hgp, h2, hshift, ihx]
    · have hout : ¬ out.trim = "1" := by
        simp [bootNotSeen, hgp] at hb
        simpa using hb
      simp [ha, hgp, hout, h2, hshift, ihx]

/-- C9: `wait_for_boot` errors at the first poll iteration that observes the
tracked process dead — after `n` two-second sleeps when the death is first
seen at iteration `n` — instead of waiting out the remaining timeout; in
particular with the process already dead it exits at iteration 0. -/
theorem wait_for_boot_fails_fast (env : BootEnv) (timeout n : Nat)
    (halive : env.alive n = false)
    (hpre : ∀ i, i < n → env.alive i = true ∧ bootNotSeen env i = true)
    (htime : 2 * n ≤ timeout) :
    Container.wait_for_boot env timeout = (.error .processDied, n) := by
  have h := waitLoop_dies env timeout n 0 (by simpa using halive)
    (by intro i hi; simpa using hpre i hi) (by omega)
  simpa [Container.wait_for_boot] using h

/-- Witness for C9: `wait_for_boot(1)` on a container whose tracked process
has already died errors at iteration 0, before any 2-second sleep. -/
theorem wait_for_boot_fails_fast_witness :
    Container.wait_for_boot bootDead 1 = (.error .processDied, 0) :=
  wait_for_boot_fails_fast bootDead 1 0 rfl
    (fun i hi => absurd hi (Nat.not_lt_zero i)) (by omega)

/-- Witness for C3 at uid 0 and gid 65534. -/
theorem mapping_lines_three_fields_witness :
    0 < 2 ^ 32 ∧ 65534 < 2 ^ 32 ∧
    (splitSp (uid_map_line 0).data = [['0'], (Nat.repr 0).data, ['1']] ∧
     splitSp (gid_map_line 65534).data = [['0'], (Nat.repr 65534).data, ['1']] ∧
     (setup_uid_gid_mapping nsAllOk 0 65534).2.2 =
       [("/proc/self/uid_map", uid_map_line 0),
        ("/proc/self/setgroups", "deny"),
        ("/proc/self/gid_map", gid_map_line 65534)]) :=
  ⟨by norm_num, by norm_num,
    mapping_lines_three_fields 0 65534 (by norm_num) (by norm_num)⟩

end Rad
